import Mathlib

/-!
Verification of the Pexels API gateway client
(`src/services/pexels-service.ts`) and the parameter-name translation done
by the tool handlers in `src/main.ts`.

The TypeScript code is embedded shallowly:

* The HTTP transport (`node-fetch`) is an explicit function argument of type
  `HttpRequest → HttpResponse`; the list of transport invocations performed by
  a call is returned alongside the result, so "zero network calls" and
  "exactly one GET" are provable statements.
* The response body is modelled by its observable outcomes: `jsonData` is the
  JSON parse of the body on the success path (`none` = invalid JSON),
  `errJson` holds the `error`/`code` fields when the body parses as JSON on
  the failure path, and `text` is the raw body text.  Body reads are treated
  as pure accessors, matching the abstract transport interface
  `GET(url, headers) -> status / headers / jsonBody() / textBody()`.
* JavaScript string falsiness (`!s`, `s || t`) is modelled by emptiness
  tests; `parseInt(s, 10)` is modelled by `parseIntJs`, whose `none` result
  stands for `NaN`; `String.prototype.startsWith` is modelled by
  `jsStartsWith` as a character-prefix test.
* `URLSearchParams` is modelled at the key/value-pair level; its `toString`
  is rendered as `k=v` pairs joined by `&` (percent-encoding of the pair
  text is a transport-level detail not modelled here, and no claim depends
  on it).
-/

namespace PexelsMCP

/-- A scalar query-parameter value (`string | number` in the TypeScript
signature of `request`); `render` mirrors JS `value.toString()`. -/
inductive ParamValue where
  | str (s : String)
  | num (n : Nat)
deriving DecidableEq

/-- JS `value.toString()` for a query-parameter scalar. -/
def ParamValue.render : ParamValue → String
  | .str s => s
  | .num n => Nat.repr n

/-- The single outbound HTTP request issued by `request`
(`fetch(url, { headers: { Authorization: this.apiKey } })`). -/
structure HttpRequest where
  method : String
  url : String
  authorization : String
deriving DecidableEq

/-- The `error` / `code` fields of a JSON error body, as read by the
non-success branch of `request`. -/
structure ErrJson where
  error : Option String
  code : Option String
deriving DecidableEq

/-- An HTTP response as observed by `request`: status, parsed-body outcomes,
raw body text, and the three `X-Ratelimit-*` headers (`none` = absent). -/
structure HttpResponse where
  status : Nat
  jsonData : Option String
  errJson : Option ErrJson
  text : String
  rlLimit : Option String
  rlRemaining : Option String
  rlReset : Option String
deriving DecidableEq

/-- `response.ok` of the fetch API: status in `[200, 300)`. -/
def responseOk (r : HttpResponse) : Bool :=
  decide (200 ≤ r.status ∧ r.status < 300)

/-- Models JavaScript `String.prototype.startsWith` as a character-prefix
test on the underlying character lists. -/
def jsStartsWith (s p : String) : Bool :=
  p.data.isPrefixOf s.data

/-- Whether an optional string is JS-truthy (present and non-empty). -/
def jsTruthy (o : Option String) : Bool :=
  match o with
  | some s => decide (s ≠ "")
  | none => false

/-- JS `a || b` where `a` is an optional string: `b` when `a` is absent or
empty, else the string held by `a`. -/
def jsOrElse (o : Option String) (fallback : String) : String :=
  match o with
  | some s => if s = "" then fallback else s
  | none => fallback

/-- Digit-run value used by `parseIntJs`: `none` when the run is empty. -/
def digitsVal (cs : List Char) : Option Nat :=
  let ds := cs.takeWhile Char.isDigit
  if ds.isEmpty then none
  else some (ds.foldl (fun a c => a * 10 + (c.toNat - 48)) 0)

/-- Models JavaScript `parseInt(s, 10)`: skip leading whitespace, read an
optional sign and then a maximal digit run; `none` models the `NaN` result
produced when no digits are found. -/
def parseIntJs (s : String) : Option Int :=
  match s.data.dropWhile (fun c => c == ' ' || c == '\t' || c == '\n' || c == '\r') with
  | '-' :: rest => (digitsVal rest).map (fun n => -(n : Int))
  | '+' :: rest => (digitsVal rest).map (fun n => (n : Int))
  | rest => (digitsVal rest).map (fun n => (n : Int))

/-- A `number | null` rate-limit field of the result: `null` when the header
was falsy, `nan` when `parseInt` produced `NaN`, else the parsed integer. -/
inductive RlField where
  | null
  | nan
  | int (n : Int)
deriving DecidableEq

/-- One field of the rate-limit object:
`header ? parseInt(header, 10) : null`. -/
def mkRlField (header : Option String) : RlField :=
  match header with
  | none => .null
  | some s =>
    if s = "" then .null
    else
      match parseIntJs s with
      | some n => .int n
      | none => .nan

/-- The rate-limit snapshot `{limit, remaining, reset}` built by `request`. -/
structure RateLimitInfo where
  limit : RlField
  remaining : RlField
  reset : RlField
deriving DecidableEq

/-- Rate-limit extraction of `request`: build the three fields from the
headers, then keep the object only if some field is non-null
(`Object.values(rateLimit).some(v => v !== null)`). -/
def extractRateLimit (r : HttpResponse) : Option RateLimitInfo :=
  let rl : RateLimitInfo := ⟨mkRlField r.rlLimit, mkRlField r.rlRemaining, mkRlField r.rlReset⟩
  if rl.limit ≠ RlField.null ∨ rl.remaining ≠ RlField.null ∨ rl.reset ≠ RlField.null then
    some rl
  else
    none

/-- The value of a successful call: opaque payload plus optional rate-limit
snapshot (`PexelsApiResponse<T>` with `T` kept opaque as a string). -/
structure ApiResult where
  data : String
  rateLimit : Option RateLimitInfo
deriving DecidableEq

/-- The failure kinds of `request`: the missing-key guard, a non-success
HTTP status (carrying the status and the thrown message), and a JSON parse
failure on the success path. -/
inductive PexelsError where
  | config (message : String)
  | api (status : Nat) (message : String)
  | parse (message : String)
deriving DecidableEq

/-- The message thrown by the missing-key guard of `request`. -/
def apiKeyRequiredMsg : String :=
  "Pexels API key is required. Please set an API key before making requests."

/-- Placeholder message for the transport-level JSON parse failure on the
success path (the thrown text comes from the fetch library, not this code). -/
def parseFailureMsg : String :=
  "invalid json response body"

/-- The error body resolution of the non-success branch:
`errorJson.error || errorJson.code || await response.text()`, with the raw
text used when the body is not JSON. -/
def resolveErrorBody (r : HttpResponse) : String :=
  match r.errJson with
  | some j => jsOrElse j.error (jsOrElse j.code r.text)
  | none => r.text

/-- The `switch (response.status)` of `request`: statuses 401, 404 and 429
replace the generic message; every message is prefixed with
`Pexels API Error (status): `. -/
def errorMessage (status : Nat) (errorBody : String) : String :=
  if status = 401 then "Pexels API Error (401): Unauthorized. Check your API key."
  else if status = 404 then "Pexels API Error (404): Resource not found."
  else if status = 429 then "Pexels API Error (429): Rate limit exceeded. Please wait and try again."
  else "Pexels API Error (" ++ Nat.repr status ++ "): " ++ errorBody

/-- `private readonly baseUrl` of the service. -/
def baseUrl : String := "https://api.pexels.com"

/-- Query-string construction of `request`: append `(key, value.toString())`
for every entry whose value is not `undefined`, in entry order. -/
def buildQueryParams (params : List (String × Option ParamValue)) : List (String × String) :=
  params.foldl
    (fun acc kv =>
      match kv.2 with
      | some v => acc ++ [(kv.1, v.render)]
      | none => acc)
    []

/-- `URLSearchParams.toString()` at the pair level: `k=v` joined by `&`. -/
def renderQuery (pairs : List (String × String)) : String :=
  String.intercalate "&" (pairs.map (fun kv => kv.1 ++ "=" ++ kv.2))

/-- URL construction of `request`: the `/v1` segment is skipped exactly when
the endpoint starts with `/videos`, and `?` plus the query string is appended
exactly when the query string is non-empty. -/
def buildUrl (endpoint : String) (pairs : List (String × String)) : String :=
  let isVideoEndpoint := jsStartsWith endpoint "/videos"
  baseUrl ++ (if isVideoEndpoint then "" else "/v1") ++ endpoint ++
    (if renderQuery pairs = "" then "" else "?" ++ renderQuery pairs)

/-- The single GET issued by `request`: the held credential is the
`Authorization` header value, with no scheme text added. -/
def builtRequest (apiKey endpoint : String) (params : List (String × Option ParamValue)) : HttpRequest :=
  ⟨"GET", buildUrl endpoint (buildQueryParams params), apiKey⟩

/-- The core request operation of the service (`private async request<T>`),
with the transport passed explicitly and the list of transport invocations
returned alongside the result. -/
def request (apiKey endpoint : String) (params : List (String × Option ParamValue))
    (transport : HttpRequest → HttpResponse) :
    Except PexelsError ApiResult × List HttpRequest :=
  if apiKey = "" then
    (Except.error (PexelsError.config apiKeyRequiredMsg), [])
  else
    let req := builtRequest apiKey endpoint params
    let resp := transport req
    if responseOk resp then
      match resp.jsonData with
      | some d => (Except.ok ⟨d, extractRateLimit resp⟩, [req])
      | none => (Except.error (PexelsError.parse parseFailureMsg), [req])
    else
      (Except.error (PexelsError.api resp.status (errorMessage resp.status (resolveErrorBody resp))), [req])

/-- Client state: the one mutable field of the service class. -/
structure PexelsService where
  apiKey : String
deriving DecidableEq

/-- The constructor: `this.apiKey = apiKey || process.env.PEXELS_API_KEY || ''`. -/
def PexelsService.construct (apiKeyArg envKey : Option String) : PexelsService :=
  ⟨jsOrElse apiKeyArg (jsOrElse envKey "")⟩

/-- `setApiKey`: unconditionally replaces the held credential. -/
def PexelsService.setApiKey (s : PexelsService) (k : String) : PexelsService :=
  { s with apiKey := k }

/-- `request` as invoked on a service instance. -/
def PexelsService.request (s : PexelsService) (endpoint : String)
    (params : List (String × Option ParamValue)) (transport : HttpRequest → HttpResponse) :
    Except PexelsError ApiResult × List HttpRequest :=
  PexelsMCP.request s.apiKey endpoint params transport

/-- The options record of `searchPhotos`, in the field order of the object
the tool handler builds (which is the order the keys are serialized in). -/
structure SearchPhotosOptions where
  orientation : Option String := none
  size : Option String := none
  color : Option String := none
  locale : Option String := none
  page : Option Nat := none
  per_page : Option Nat := none
deriving DecidableEq

/-- The parameter record `{query, ...options}` that `searchPhotos` hands to
`request`, in JS object-spread insertion order. -/
def searchPhotosParams (query : String) (o : SearchPhotosOptions) :
    List (String × Option ParamValue) :=
  [("query", some (.str query)),
   ("orientation", o.orientation.map .str),
   ("size", o.size.map .str),
   ("color", o.color.map .str),
   ("locale", o.locale.map .str),
   ("page", o.page.map .num),
   ("per_page", o.per_page.map .num)]

/-- `searchPhotos`: `request('/search', {query, ...options})`. -/
def PexelsService.searchPhotos (s : PexelsService) (query : String)
    (o : SearchPhotosOptions) (transport : HttpRequest → HttpResponse) :
    Except PexelsError ApiResult × List HttpRequest :=
  s.request "/search" (searchPhotosParams query o) transport

/-- The `searchPhotos` tool handler of `main.ts`: it takes the
external-facing camelCase arguments and builds the options object
`{orientation, size, color, locale, page, per_page: perPage}` — the
camelCase `perPage` argument lands in the snake-cased `per_page` slot. -/
def searchPhotosTool (s : PexelsService) (query : String)
    (orientation size color locale : Option String) (page perPage : Option Nat)
    (transport : HttpRequest → HttpResponse) :
    Except PexelsError ApiResult × List HttpRequest :=
  s.searchPhotos query ⟨orientation, size, color, locale, page, perPage⟩ transport

/-- A `{page?, per_page?}` options record. -/
structure PageOptions where
  page : Option Nat := none
  per_page : Option Nat := none
deriving DecidableEq

/-- Serialization of a `{page?, per_page?}` options record. -/
def pageParams (o : PageOptions) : List (String × Option ParamValue) :=
  [("page", o.page.map .num), ("per_page", o.per_page.map .num)]

/-- `getCuratedPhotos`: `request('/curated', options)`. -/
def PexelsService.getCuratedPhotos (s : PexelsService) (o : PageOptions)
    (transport : HttpRequest → HttpResponse) :
    Except PexelsError ApiResult × List HttpRequest :=
  s.request "/curated" (pageParams o) transport

/-- `getPhoto`: `request('/photos/id')` path templating. -/
def PexelsService.getPhoto (s : PexelsService) (id : Nat)
    (transport : HttpRequest → HttpResponse) :
    Except PexelsError ApiResult × List HttpRequest :=
  s.request ("/photos/" ++ Nat.repr id) [] transport

/-- The endpoint path built by `getVideo`, with its doubled `videos`
segment. -/
def getVideoEndpoint (id : Nat) : String :=
  "/videos/videos/" ++ Nat.repr id

/-- `getVideo`: `request('/videos/videos/id')`. -/
def PexelsService.getVideo (s : PexelsService) (id : Nat)
    (transport : HttpRequest → HttpResponse) :
    Except PexelsError ApiResult × List HttpRequest :=
  s.request (getVideoEndpoint id) [] transport

/-- The options record of `getPopularVideos`, in the field order of the
object the tool handler builds. -/
structure PopularVideosOptions where
  min_width : Option Nat := none
  min_height : Option Nat := none
  min_duration : Option Nat := none
  max_duration : Option Nat := none
  page : Option Nat := none
  per_page : Option Nat := none
deriving DecidableEq

/-- Serialization of the `getPopularVideos` options record. -/
def popularVideosParams (o : PopularVideosOptions) : List (String × Option ParamValue) :=
  [("min_width", o.min_width.map .num),
   ("min_height", o.min_height.map .num),
   ("min_duration", o.min_duration.map .num),
   ("max_duration", o.max_duration.map .num),
   ("page", o.page.map .num),
   ("per_page", o.per_page.map .num)]

/-- `getPopularVideos`: `request('/videos/popular', options)`. -/
def PexelsService.getPopularVideos (s : PexelsService) (o : PopularVideosOptions)
    (transport : HttpRequest → HttpResponse) :
    Except PexelsError ApiResult × List HttpRequest :=
  s.request "/videos/popular" (popularVideosParams o) transport

/-- The `getPopularVideos` tool handler of `main.ts`: camelCase arguments
(`minWidth`, …, `perPage`) land in the snake-cased option slots
(`min_width`, …, `per_page`). -/
def getPopularVideosTool (s : PexelsService)
    (minWidth minHeight minDuration maxDuration page perPage : Option Nat)
    (transport : HttpRequest → HttpResponse) :
    Except PexelsError ApiResult × List HttpRequest :=
  s.getPopularVideos ⟨minWidth, minHeight, minDuration, maxDuration, page, perPage⟩ transport

/-- A stub success response: status 200, a JSON body, no rate-limit headers. -/
def okStubResponse : HttpResponse :=
  ⟨200, some "payload", none, "", none, none, none⟩

/-- A stub transport that always answers with `okStubResponse`. -/
def okStubTransport : HttpRequest → HttpResponse :=
  fun _ => okStubResponse

/-- A stub 401 response whose body is plain text (not JSON). -/
def unauthorizedStubResponse : HttpResponse :=
  ⟨401, none, none, "some body text", none, none, none⟩

deriving instance DecidableEq for Except

/-- The key/value serialization applied to one parameter entry. -/
def serializeEntry (kv : String × Option ParamValue) : Option (String × String) :=
  kv.2.map (fun v => (kv.1, v.render))

/-! ## Helper lemmas -/

theorem jsStartsWith_append (p t : String) : jsStartsWith (p ++ t) p = true := by
  simp only [jsStartsWith, String.data_append, List.isPrefixOf_iff_prefix]
  exact List.prefix_append _ _

theorem videos_route_of_doubled (s : String) :
    jsStartsWith ("/videos/videos/" ++ s) "/videos" = true := by
  have e : ("/videos" : String) ++ "/videos/" = "/videos/videos/" := by decide
  rw [← e, String.append_assoc]
  exact jsStartsWith_append _ _

theorem buildQueryParams_foldl (ps : List (String × Option ParamValue))
    (acc : List (String × String)) :
    ps.foldl
      (fun acc kv =>
        match kv.2 with
        | some v => acc ++ [(kv.1, v.render)]
        | none => acc)
      acc
      = acc ++ ps.filterMap serializeEntry := by
  induction ps generalizing acc with
  | nil => simp
  | cons kv tl ih =>
    cases hv : kv.2 with
    | some v => simp [List.foldl_cons, hv, ih, serializeEntry]
    | none => simp [List.foldl_cons, hv, ih, serializeEntry]

theorem buildQueryParams_eq (ps : List (String × Option ParamValue)) :
    buildQueryParams ps = ps.filterMap serializeEntry := by
  simpa using buildQueryParams_foldl ps []

theorem buildQueryParams_nil (ps : List (String × Option ParamValue))
    (h : ∀ kv ∈ ps, kv.2 = none) : buildQueryParams ps = [] := by
  rw [buildQueryParams_eq, List.filterMap_eq_nil_iff]
  intro kv hkv
  simp [serializeEntry, h kv hkv]

theorem request_snd (key endpoint : String) (params : List (String × Option ParamValue))
    (transport : HttpRequest → HttpResponse) (hk : key ≠ "") :
    (request key endpoint params transport).2 = [builtRequest key endpoint params] := by
  simp only [request, if_neg hk]
  split
  · split <;> rfl
  · rfl

theorem request_not_ok (key endpoint : String) (params : List (String × Option ParamValue))
    (transport : HttpRequest → HttpResponse) (hk : key ≠ "")
    (hok : responseOk (transport (builtRequest key endpoint params)) = false) :
    (request key endpoint params transport).1
      = Except.error (PexelsError.api (transport (builtRequest key endpoint params)).status
          (errorMessage (transport (builtRequest key endpoint params)).status
            (resolveErrorBody (transport (builtRequest key endpoint params))))) := by
  simp only [request, if_neg hk, hok]
  rfl

theorem request_ok (key endpoint : String) (params : List (String × Option ParamValue))
    (transport : HttpRequest → HttpResponse) (d : String) (hk : key ≠ "")
    (hok : responseOk (transport (builtRequest key endpoint params)) = true)
    (hd : (transport (builtRequest key endpoint params)).jsonData = some d) :
    (request key endpoint params transport).1
      = Except.ok ⟨d, extractRateLimit (transport (builtRequest key endpoint params))⟩ := by
  simp [request, if_neg hk, hok, hd]

theorem renderQuery_nil : renderQuery [] = "" := rfl

theorem buildQueryParams_empty : buildQueryParams [] = [] := rfl

theorem mkRlField_null_iff (h : Option String) :
    mkRlField h = RlField.null ↔ jsTruthy h = false := by
  cases h with
  | none => simp [mkRlField, jsTruthy]
  | some s =>
    by_cases hs : s = ""
    · simp [mkRlField, jsTruthy, hs]
    · cases hp : parseIntJs s <;> simp [mkRlField, jsTruthy, hs, hp]

/-! ## Claim theorems -/

/-- C1: with an empty credential at call time, `request` fails with the
configuration error (a kind distinct from the HTTP-status and parse
failures) and the transport is never invoked, for every endpoint path,
parameter record and transport. -/
theorem empty_key_fails_without_network :
    ∀ (endpoint : String) (params : List (String × Option ParamValue))
      (transport : HttpRequest → HttpResponse),
      request "" endpoint params transport
          = (Except.error (PexelsError.config apiKeyRequiredMsg), []) ∧
      (∀ st m, PexelsError.config apiKeyRequiredMsg ≠ PexelsError.api st m) ∧
      (∀ m, PexelsError.config apiKeyRequiredMsg ≠ PexelsError.parse m) := by
  intro endpoint params transport
  refine ⟨rfl, ?_, ?_⟩
  · intro st m h
    cases h
  · intro m h
    cases h

/-- Witness for C1 at a concrete call. -/
theorem empty_key_fails_without_network_witness :
    request "" "/search" [] okStubTransport
      = (Except.error (PexelsError.config apiKeyRequiredMsg), []) :=
  (empty_key_fails_without_network "/search" [] okStubTransport).1

/-- C2: an endpoint path starting with `/videos` is routed to the bare host
(no `/v1` segment) and any other path to the `/v1` root; in particular
`/videos/popular` and `/search` map to the two example URLs. -/
theorem video_route_omits_v1 :
    (∀ (endpoint : String) (pairs : List (String × String)),
        jsStartsWith endpoint "/videos" = true →
        buildUrl endpoint pairs
          = baseUrl ++ endpoint ++ (if renderQuery pairs = "" then "" else "?" ++ renderQuery pairs)) ∧
    (∀ (endpoint : String) (pairs : List (String × String)),
        jsStartsWith endpoint "/videos" = false →
        buildUrl endpoint pairs
          = baseUrl ++ "/v1" ++ endpoint ++ (if renderQuery pairs = "" then "" else "?" ++ renderQuery pairs)) ∧
    buildUrl "/videos/popular" [] = "https://api.pexels.com/videos/popular" ∧
    buildUrl "/search" [] = "https://api.pexels.com/v1/search" := by
  refine ⟨?_, ?_, by decide, by decide⟩
  · intro endpoint pairs h
    simp [buildUrl, h]
  · intro endpoint pairs h
    simp [buildUrl, h]

/-- Witness for C2 at a concrete video endpoint. -/
theorem video_route_omits_v1_witness :
    buildUrl "/videos/search" []
      = baseUrl ++ "/videos/search" ++ (if renderQuery [] = "" then "" else "?" ++ renderQuery []) :=
  video_route_omits_v1.1 "/videos/search" [] (by decide)

/-- C3 counterexample: at a concrete 401 response the one error produced by
`request` carries the message `Pexels API Error (401): Unauthorized. Check
your API key.`, which is not the claimed exact text `Unauthorized. Check
your API key.`. -/
theorem error_message_exact_counterexample :
    (request "key" "/search" [] (fun _ => unauthorizedStubResponse)).1
      = Except.error (PexelsError.api 401 "Pexels API Error (401): Unauthorized. Check your API key.") ∧
    "Pexels API Error (401): Unauthorized. Check your API key."
      ≠ "Unauthorized. Check your API key." := by
  exact ⟨by decide, by decide⟩

/-- C3 (amended): a non-success status makes `request` fail with an error
carrying that status and the resolved message; for 401, 404 and 429 the
message is the fixed status-specific text prefixed with
`Pexels API Error (status): `, regardless of the response body. -/
theorem non_success_error_messages (key endpoint : String)
    (params : List (String × Option ParamValue)) (transport : HttpRequest → HttpResponse)
    (hk : key ≠ "") :
    (responseOk (transport (builtRequest key endpoint params)) = false →
        (request key endpoint params transport).1
          = Except.error (PexelsError.api (transport (builtRequest key endpoint params)).status
              (errorMessage (transport (builtRequest key endpoint params)).status
                (resolveErrorBody (transport (builtRequest key endpoint params)))))) ∧
    ((transport (builtRequest key endpoint params)).status = 401 →
        (request key endpoint params transport).1
          = Except.error (PexelsError.api 401 "Pexels API Error (401): Unauthorized. Check your API key.")) ∧
    ((transport (builtRequest key endpoint params)).status = 404 →
        (request key endpoint params transport).1
          = Except.error (PexelsError.api 404 "Pexels API Error (404): Resource not found.")) ∧
    ((transport (builtRequest key endpoint params)).status = 429 →
        (request key endpoint params transport).1
          = Except.error (PexelsError.api 429 "Pexels API Error (429): Rate limit exceeded. Please wait and try again.")) := by
  refine ⟨request_not_ok key endpoint params transport hk, ?_, ?_, ?_⟩ <;>
    intro hst <;>
    rw [request_not_ok key endpoint params transport hk (by simp [responseOk, hst]), hst] <;>
    simp [errorMessage]

/-- Witness for C3 (amended) at a concrete 404 response. -/
theorem non_success_error_messages_witness :
    (request "key" "/search" [] (fun _ => ⟨404, none, none, "x", none, none, none⟩)).1
      = Except.error (PexelsError.api 404 "Pexels API Error (404): Resource not found.") :=
  (non_success_error_messages "key" "/search" []
    (fun _ => ⟨404, none, none, "x", none, none, none⟩) (by decide)).2.2.1 rfl

/-- C4: the generated query string holds exactly the entries whose value is
present, each serialized via its natural string form; the key list is the
key list of the present-valued entries, so absent entries never appear. -/
theorem query_holds_exactly_present_keys :
    ∀ ps : List (String × Option ParamValue),
      buildQueryParams ps = ps.filterMap serializeEntry ∧
      (buildQueryParams ps).map Prod.fst
        = (ps.filter (fun kv => kv.2.isSome)).map Prod.fst := by
  intro ps
  refine ⟨buildQueryParams_eq ps, ?_⟩
  rw [buildQueryParams_eq]
  induction ps with
  | nil => rfl
  | cons kv tl ih =>
    cases hv : kv.2 with
    | some v => simp [serializeEntry, hv, ih]
    | none => simp [serializeEntry, hv, ih]

/-- Witness for C4 at a concrete parameter record with one absent value. -/
theorem query_holds_exactly_present_keys_witness :
    buildQueryParams [("a", some (ParamValue.str "x")), ("b", none), ("c", some (ParamValue.num 5))]
      = [("a", "x"), ("c", "5")] :=
  (query_holds_exactly_present_keys
    [("a", some (ParamValue.str "x")), ("b", none), ("c", some (ParamValue.num 5))]).1.trans
    (by decide)

/-- C5 counterexample: on a successful response whose limit header is the
unparseable text `abc`, the snapshot records the JS `NaN` value (a
`number`, not the `null` unknown marker) for the limit field; and when all
three headers are present but empty, the snapshot is entirely absent even
though headers are present. -/
theorem rate_limit_unknown_counterexample :
    (request "key" "/curated" [] (fun _ => ⟨200, some "x", none, "", some "abc", none, none⟩)).1
      = Except.ok ⟨"x", some ⟨RlField.nan, RlField.null, RlField.null⟩⟩ ∧
    RlField.nan ≠ RlField.null ∧
    (request "key" "/curated" [] (fun _ => ⟨200, some "x", none, "", some "", some "", some ""⟩)).1
      = Except.ok ⟨"x", none⟩ := by
  exact ⟨by decide, by decide, by decide⟩

/-- C5 (amended): on a successful parse the result carries
`extractRateLimit` of the response; the snapshot is absent exactly when no
rate-limit header is JS-truthy (present and non-empty); a field is `null`
exactly when its header is absent or empty, and a present non-empty header
parses to its `parseInt` value, recording `NaN` (not `null`) when no digits
are found. -/
theorem rate_limit_snapshot_extraction (r : HttpResponse) :
    (jsTruthy r.rlLimit = false ∧ jsTruthy r.rlRemaining = false ∧ jsTruthy r.rlReset = false →
        extractRateLimit r = none) ∧
    (jsTruthy r.rlLimit = true ∨ jsTruthy r.rlRemaining = true ∨ jsTruthy r.rlReset = true →
        extractRateLimit r
          = some ⟨mkRlField r.rlLimit, mkRlField r.rlRemaining, mkRlField r.rlReset⟩) ∧
    (∀ h : Option String, (mkRlField h = RlField.null ↔ jsTruthy h = false)) ∧
    (∀ s : String, s ≠ "" →
        mkRlField (some s)
          = match parseIntJs s with
            | some n => RlField.int n
            | none => RlField.nan) ∧
    (∀ (key endpoint : String) (params : List (String × Option ParamValue))
        (transport : HttpRequest → HttpResponse) (d : String), key ≠ "" →
        responseOk (transport (builtRequest key endpoint params)) = true →
        (transport (builtRequest key endpoint params)).jsonData = some d →
        (request key endpoint params transport).1
          = Except.ok ⟨d, extractRateLimit (transport (builtRequest key endpoint params))⟩) := by
  refine ⟨?_, ?_, mkRlField_null_iff, ?_, ?_⟩
  · intro ⟨h1, h2, h3⟩
    have e1 := (mkRlField_null_iff r.rlLimit).mpr h1
    have e2 := (mkRlField_null_iff r.rlRemaining).mpr h2
    have e3 := (mkRlField_null_iff r.rlReset).mpr h3
    simp [extractRateLimit, e1, e2, e3]
  · intro h
    have hne : mkRlField r.rlLimit ≠ RlField.null ∨ mkRlField r.rlRemaining ≠ RlField.null ∨
        mkRlField r.rlReset ≠ RlField.null := by
      rcases h with h | h | h
      · exact Or.inl (fun e => by simp [(mkRlField_null_iff _).mp e] at h)
      · exact Or.inr (Or.inl (fun e => by simp [(mkRlField_null_iff _).mp e] at h))
      · exact Or.inr (Or.inr (fun e => by simp [(mkRlField_null_iff _).mp e] at h))
    simp [extractRateLimit, if_pos hne]
  · intro s hs
    simp [mkRlField, hs]
  · intro key endpoint params transport d hk hok hd
    exact request_ok key endpoint params transport d hk hok hd

/-- Witness for C5 (amended) at a concrete response with one parseable
header. -/
theorem rate_limit_snapshot_extraction_witness :
    extractRateLimit ⟨200, some "x", none, "", some "100", none, none⟩
      = some ⟨mkRlField (some "100"), mkRlField none, mkRlField none⟩ :=
  (rate_limit_snapshot_extraction ⟨200, some "x", none, "", some "100", none, none⟩).2.1
    (Or.inl (by decide))

/-- C6: `getVideo` builds the endpoint path `/videos/videos/` followed by
the decimal rendering of the id (the doubled segment preserved), issues it
against the bare host, and at id 42 the path is exactly
`/videos/videos/42`. -/
theorem get_video_doubled_segment (id : Nat) (_hpos : 0 < id) :
    getVideoEndpoint id = "/videos/videos/" ++ Nat.repr id ∧
    (∀ (s : PexelsService) (transport : HttpRequest → HttpResponse), s.apiKey ≠ "" →
        (s.getVideo id transport).2
          = [⟨"GET", baseUrl ++ ("/videos/videos/" ++ Nat.repr id), s.apiKey⟩]) ∧
    getVideoEndpoint 42 = "/videos/videos/42" := by
  refine ⟨rfl, ?_, by decide⟩
  intro s transport hk
  rw [PexelsService.getVideo, PexelsService.request, request_snd _ _ _ _ hk]
  simp [builtRequest, buildUrl, getVideoEndpoint, videos_route_of_doubled,
    buildQueryParams_empty, renderQuery_nil]

/-- Witness for C6 at id 42. -/
theorem get_video_doubled_segment_witness :
    getVideoEndpoint 42 = "/videos/videos/42" ∧
    ((⟨"key"⟩ : PexelsService).getVideo 42 okStubTransport).2
      = [⟨"GET", baseUrl ++ ("/videos/videos/" ++ Nat.repr 42), "key"⟩] :=
  ⟨(get_video_doubled_segment 42 (by decide)).2.2,
   (get_video_doubled_segment 42 (by decide)).2.1 ⟨"key"⟩ okStubTransport (by decide)⟩

/-- C7: the searchPhotos example call serializes to exactly
`query=red car`, `orientation=landscape`, `per_page=80`; the key lists of
the searchPhotos and getPopularVideos parameter records are the snake-cased
upstream names, and the tool handlers put the camelCase arguments
(`perPage`, `minWidth`, …) into those snake-cased slots. -/
theorem search_photos_param_translation :
    buildQueryParams (searchPhotosParams "red car" ⟨some "landscape", none, none, none, none, some 80⟩)
      = [("query", "red car"), ("orientation", "landscape"), ("per_page", "80")] ∧
    (∀ (q : String) (o : SearchPhotosOptions),
        (searchPhotosParams q o).map Prod.fst
          = ["query", "orientation", "size", "color", "locale", "page", "per_page"]) ∧
    (∀ o : PopularVideosOptions,
        (popularVideosParams o).map Prod.fst
          = ["min_width", "min_height", "min_duration", "max_duration", "page", "per_page"]) ∧
    (∀ (s : PexelsService) (q : String) (ori sz c l : Option String) (p pp : Option Nat)
        (t : HttpRequest → HttpResponse),
        searchPhotosTool s q ori sz c l p pp t
          = request s.apiKey "/search" (searchPhotosParams q ⟨ori, sz, c, l, p, pp⟩) t) ∧
    (∀ (s : PexelsService) (mw mh md xd p pp : Option Nat) (t : HttpRequest → HttpResponse),
        getPopularVideosTool s mw mh md xd p pp t
          = request s.apiKey "/videos/popular" (popularVideosParams ⟨mw, mh, md, xd, p, pp⟩) t) := by
  exact ⟨by decide, fun q o => rfl, fun o => rfl, fun _ _ _ _ _ _ _ _ _ => rfl,
    fun _ _ _ _ _ _ _ _ => rfl⟩

/-- Witness for C7: the example call routed through the tool handler issues
the expected parameter record. -/
theorem search_photos_param_translation_witness :
    buildQueryParams (searchPhotosParams "red car" ⟨some "landscape", none, none, none, none, some 80⟩)
      = [("query", "red car"), ("orientation", "landscape"), ("per_page", "80")] :=
  search_photos_param_translation.1

/-- C8: a configuration failure does not poison the client: after a failed
call with an empty credential, `setApiKey` replaces the credential
unconditionally (the resulting state holds exactly the new key) and the
retried operation succeeds against a transport returning a success status
with a parseable body. -/
theorem set_api_key_recovers_after_config_error (s : PexelsService) (endpoint : String)
    (params : List (String × Option ParamValue)) (t0 t1 : HttpRequest → HttpResponse)
    (k : String) (hs : s.apiKey = "") (hk : k ≠ "")
    (h1 : ∀ req, 200 ≤ (t1 req).status ∧ (t1 req).status < 300 ∧ ((t1 req).jsonData).isSome = true) :
    (s.request endpoint params t0).1 = Except.error (PexelsError.config apiKeyRequiredMsg) ∧
    (∀ (s' : PexelsService) (k' : String), s'.setApiKey k' = ⟨k'⟩) ∧
    ∃ res, ((s.setApiKey k).request endpoint params t1).1 = Except.ok res := by
  refine ⟨?_, fun s' k' => rfl, ?_⟩
  · rw [PexelsService.request, hs]
    rfl
  · rw [PexelsService.setApiKey]
    obtain ⟨hle, hlt, hsome⟩ := h1 (builtRequest k endpoint params)
    obtain ⟨d, hd⟩ := Option.isSome_iff_exists.mp hsome
    refine ⟨⟨d, extractRateLimit (t1 (builtRequest k endpoint params))⟩, ?_⟩
    show (request k endpoint params t1).1 = _
    exact request_ok k endpoint params t1 d hk (by simp [responseOk, hle, hlt]) hd

/-- Witness for C8 at a concrete failed-then-retried call. -/
theorem set_api_key_recovers_after_config_error_witness :
    ((⟨""⟩ : PexelsService).request "/search" [] okStubTransport).1
      = Except.error (PexelsError.config apiKeyRequiredMsg) ∧
    (∀ (s' : PexelsService) (k' : String), s'.setApiKey k' = ⟨k'⟩) ∧
    ∃ res, (((⟨""⟩ : PexelsService).setApiKey "key").request "/search" [] okStubTransport).1
      = Except.ok res :=
  set_api_key_recovers_after_config_error ⟨""⟩ "/search" [] okStubTransport okStubTransport
    "key" rfl (by decide) (fun req => ⟨of_decide_eq_true rfl, of_decide_eq_true rfl, rfl⟩)

/-- C9: with a non-empty credential, `request` invokes the transport exactly
once, with method GET and the credential attached verbatim (no scheme text)
as the Authorization value. -/
theorem single_get_with_verbatim_credential (key endpoint : String)
    (params : List (String × Option ParamValue)) (transport : HttpRequest → HttpResponse)
    (hk : key ≠ "") :
    (request key endpoint params transport).2 = [builtRequest key endpoint params] ∧
    (builtRequest key endpoint params).method = "GET" ∧
    (builtRequest key endpoint params).authorization = key :=
  ⟨request_snd key endpoint params transport hk, rfl, rfl⟩

/-- Witness for C9 at a concrete call. -/
theorem single_get_with_verbatim_credential_witness :
    (request "key" "/search" [] okStubTransport).2 = [builtRequest "key" "/search" []] ∧
    (builtRequest "key" "/search" []).method = "GET" ∧
    (builtRequest "key" "/search" []).authorization = "key" :=
  single_get_with_verbatim_credential "key" "/search" [] okStubTransport (by decide)

/-- C10: when every parameter value is absent, the issued URL is exactly the
host, the conditional `/v1` segment and the endpoint path, with nothing (in
particular no `?`) appended. -/
theorem absent_params_yield_bare_url (key endpoint : String)
    (params : List (String × Option ParamValue)) (transport : HttpRequest → HttpResponse)
    (hk : key ≠ "") (hp : ∀ kv ∈ params, kv.2 = none) :
    (request key endpoint params transport).2
      = [⟨"GET", baseUrl ++ (if jsStartsWith endpoint "/videos" then "" else "/v1") ++ endpoint, key⟩] := by
  rw [request_snd key endpoint params transport hk]
  simp [builtRequest, buildUrl, buildQueryParams_nil params hp, renderQuery_nil]

/-- Witness for C10 at a concrete call whose single parameter is absent. -/
theorem absent_params_yield_bare_url_witness :
    (request "key" "/curated" [("page", none)] okStubTransport).2
      = [⟨"GET", baseUrl ++ (if jsStartsWith "/curated" "/videos" then "" else "/v1") ++ "/curated", "key"⟩] :=
  absent_params_yield_bare_url "key" "/curated" [("page", none)] okStubTransport (by decide)
    (by decide)

end PexelsMCP
